import Mathlib

/-!
# next.config.js

A verification development for the build configuration module `next.config.js`.

The module consists of three statements, evaluated in order when it is loaded:

1. a side-effect-only load of `./src/env.js`;
2. `const config = ...`, an object literal with the properties `output` and
   `allowedDevOrigins`;
3. `export default config`.

The embedding models JavaScript values (strings, arrays, objects with ordered own
properties), object-literal evaluation, and module loading as a function from the process
environment to either a thrown error or the record of exports.
-/

namespace NextConfig

/-! ## JavaScript values -/

/-- The JavaScript values that occur in the module: strings, arrays and plain objects
whose own properties are kept in insertion order. -/
inductive JSValue where
  | str (s : String)
  | arr (elems : List JSValue)
  | obj (props : List (String × JSValue))

/-- Define or overwrite the own property `k`: an existing key keeps its position and gets
the new value, a new key is appended. -/
def setProp : List (String × JSValue) → String → JSValue → List (String × JSValue)
  | [], k, v => [(k, v)]
  | (k', v') :: rest, k, v =>
    if k' = k then (k', v) :: rest else (k', v') :: setProp rest k v

/-- Evaluation of an object literal: the property definitions are applied left to right
to an empty object. -/
def objectLiteral (defs : List (String × JSValue)) : JSValue :=
  .obj (defs.foldl (fun acc kv => setProp acc kv.1 kv.2) [])

/-- The own properties of a value; strings and arrays carry none of the named properties
that the configuration reader looks at. -/
def JSValue.props : JSValue → List (String × JSValue)
  | .obj ps => ps
  | _ => []

/-- The own enumerable string keys in order, as `Object.keys` lists them. -/
def JSValue.keys (v : JSValue) : List String :=
  v.props.map Prod.fst

/-- Read of the own property `k` of a value; `none` when there is no such own property. -/
def JSValue.get (v : JSValue) (k : String) : Option JSValue :=
  (v.props.find? (fun kv => kv.1 = k)).map Prod.snd

/-- The string carried by a value, if it is a string. -/
def JSValue.asString : JSValue → Option String
  | .str s => some s
  | _ => none

/-- The elements of a value, if it is an array. -/
def JSValue.asArray : JSValue → Option (List JSValue)
  | .arr es => some es
  | _ => none

/-- The elements of a value, if it is an array all of whose elements are strings. -/
def JSValue.asStringArray (v : JSValue) : Option (List String) :=
  match v.asArray with
  | some es => es.mapM JSValue.asString
  | none => none

/-! ## The module -/

/-- The object bound by `const config = ...` (lines 8 to 14 of the module). -/
def config : JSValue :=
  objectLiteral
    [ ("output", .str "standalone"),
      ("allowedDevOrigins", .arr [.str "https://yoshitomo.rxx.jp"]) ]

/-- The `output` field of a configuration record, read as a string. -/
def output (c : JSValue) : Option String :=
  (c.get "output").bind JSValue.asString

/-- The `allowedDevOrigins` field of a configuration record, read as a list of strings. -/
def allowedDevOrigins (c : JSValue) : Option (List String) :=
  (c.get "allowedDevOrigins").bind JSValue.asStringArray

/-- The process environment: the variables that are set, with their values. -/
structure ProcessEnv where
  vars : List (String × String)

/-- Lookup of `process.env[name]`. -/
def ProcessEnv.lookupVar (e : ProcessEnv) (name : String) : Option String :=
  (e.vars.find? (fun kv => kv.1 = name)).map Prod.snd

/-- The exports of the module: it has a default export and no named one. -/
structure ModuleExports where
  defaultExport : JSValue

/-- Loading `next.config.js`. The module `./src/env.js` is loaded first for its side
effects only: it receives the process environment, may throw (which aborts the load) and
may leave a changed process environment behind. Then `config` is bound and exported as the
default export. The behaviour of `./src/env.js` is the parameter `envModule`. -/
def loadNextConfig (envModule : ProcessEnv → Except String ProcessEnv)
    (env : ProcessEnv) : Except String ModuleExports :=
  match envModule env with
  | .error err => .error err
  | .ok _ => .ok { defaultExport := config }

/-! ## Origin strings -/

/-- The parts of an origin string: scheme, host labels and optional port. -/
structure Origin where
  scheme : String
  host : List String
  port : Option String
  deriving DecidableEq

/-- Split a character sequence at every occurrence of `sep`; the pieces between two
separators, before the first and after the last are all kept, empty ones included. -/
def splitOnChar (sep : Char) : List Char → List (List Char)
  | [] => [[]]
  | c :: cs =>
    if c = sep then [] :: splitOnChar sep cs
    else
      match splitOnChar sep cs with
      | [] => [[c]]
      | l :: ls => (c :: l) :: ls

/-- Recognise the scheme and its separator at the start of the input: `https` or `http`
followed by `://`. Returns the scheme and what follows the separator. -/
def dropScheme (cs : List Char) : Option (String × List Char) :=
  if "https://".toList.isPrefixOf cs then some ("https", cs.drop 8)
  else if "http://".toList.isPrefixOf cs then some ("http", cs.drop 7)
  else none

/-- Characters allowed in a host label: anything but the label separator, the port
separator, the characters that would start a path, query or fragment, and whitespace. -/
def isLabelChar (c : Char) : Bool :=
  !(c = '.' || c = ':' || c = '/' || c = '?' || c = '#' || c.isWhitespace)

/-- A host label is a non-empty run of label characters. -/
def isLabel (l : List Char) : Bool :=
  !l.isEmpty && l.all isLabelChar

/-- A port is a non-empty run of decimal digits. -/
def isPort (p : List Char) : Bool :=
  !p.isEmpty && p.all Char.isDigit

/-- Parse an origin string of the shape scheme `://` host, optionally followed by `:` and
a port. The host is everything up to the first `:`, split at dots into labels, each of
which has to be a label; what follows the first `:` has to be a port. -/
def parseOrigin (s : String) : Option Origin :=
  match dropScheme s.toList with
  | none => none
  | some (scheme, rest) =>
    let labels := splitOnChar '.' (rest.takeWhile (fun c => c ≠ ':'))
    if labels.all isLabel then
      match rest.dropWhile (fun c => c ≠ ':') with
      | [] => some { scheme := scheme, host := labels.map String.mk, port := none }
      | _ :: p =>
        if isPort p then
          some { scheme := scheme, host := labels.map String.mk, port := some (String.mk p) }
        else none
    else none

/-- An origin string is well formed when it parses. -/
def isWellFormedOrigin (s : String) : Bool :=
  (parseOrigin s).isSome

/-- The output modes that the build tool accepts for `NextConfig.output`. The type is
declared by the `next` package, outside this module (which refers to it in its
`@type` annotation comment). -/
def outputModes : List String :=
  ["standalone", "export"]

/-! ## Sample environments

The module `./src/env.js` is a parameter of `loadNextConfig`. The definitions below give one
possible behaviour of it and two process environments, used to instantiate the theorems. -/

/-- JavaScript truthiness of `process.env[name]`: set and not the empty string. -/
def ProcessEnv.isTruthy (e : ProcessEnv) (name : String) : Bool :=
  match e.lookupVar name with
  | some v => v ≠ ""
  | none => false

/-- A sample env module: it skips validation when `SKIP_ENV_VALIDATION` is truthy and
otherwise throws unless `DATABASE_URL` is set. It leaves the environment unchanged. -/
def sampleEnvModule (e : ProcessEnv) : Except String ProcessEnv :=
  if e.isTruthy "SKIP_ENV_VALIDATION" then .ok e
  else if (e.lookupVar "DATABASE_URL").isSome then .ok e
  else .error "Invalid environment variables"

/-- A Docker build environment: validation is skipped and no other variable is set. -/
def dockerBuildEnv : ProcessEnv :=
  { vars := [("SKIP_ENV_VALIDATION", "1")] }

/-- A development environment: the flag is unset and the validated variable is present. -/
def devEnv : ProcessEnv :=
  { vars := [("NODE_ENV", "development"), ("DATABASE_URL", "file:./db.sqlite")] }

/-- An environment in which the sample env module throws. -/
def emptyEnv : ProcessEnv :=
  { vars := [] }

/-! ## Basic facts about the object literal and the load -/

/-- The object literal evaluates to an object with the two properties in source order. -/
theorem config_eq :
    config = .obj [ ("output", .str "standalone"),
                    ("allowedDevOrigins", .arr [.str "https://yoshitomo.rxx.jp"]) ] := by
  rfl

/-- A successful load exports the object bound to `config`. -/
theorem defaultExport_of_load {envModule : ProcessEnv → Except String ProcessEnv}
    {env : ProcessEnv} {x : ModuleExports}
    (h : loadNextConfig envModule env = .ok x) : x.defaultExport = config := by
  unfold loadNextConfig at h
  split at h
  · cases h
  · cases h
    rfl

/-- The load succeeds as soon as the env module does. -/
theorem load_of_envModule_ok {envModule : ProcessEnv → Except String ProcessEnv}
    {env s : ProcessEnv} (h : envModule env = .ok s) :
    loadNextConfig envModule env = .ok { defaultExport := config } := by
  simp [loadNextConfig, h]

/-- The load fails with the error of the env module when that module throws. -/
theorem load_of_envModule_error {envModule : ProcessEnv → Except String ProcessEnv}
    {env : ProcessEnv} {err : String} (h : envModule env = .error err) :
    loadNextConfig envModule env = .error err := by
  simp [loadNextConfig, h]

/-- Sanity checks on the origin parser: it accepts a port and rejects a trailing slash, a
path, a query, a fragment, whitespace, an empty label, an empty host, an empty port and a
scheme other than `http` and `https`. -/
theorem parseOrigin_samples :
    parseOrigin "http://localhost:3000"
        = some { scheme := "http", host := ["localhost"], port := some "3000" }
      ∧ isWellFormedOrigin "https://yoshitomo.rxx.jp/" = false
      ∧ isWellFormedOrigin "https://yoshitomo.rxx.jp/a" = false
      ∧ isWellFormedOrigin "https://yoshitomo.rxx.jp?q" = false
      ∧ isWellFormedOrigin "https://yoshitomo.rxx.jp#f" = false
      ∧ isWellFormedOrigin "https://yoshitomo.rxx.jp " = false
      ∧ isWellFormedOrigin " https://yoshitomo.rxx.jp" = false
      ∧ isWellFormedOrigin "https://yoshitomo..jp" = false
      ∧ isWellFormedOrigin "https://" = false
      ∧ isWellFormedOrigin "https://yoshitomo.rxx.jp:" = false
      ∧ isWellFormedOrigin "ftp://yoshitomo.rxx.jp" = false
      ∧ isWellFormedOrigin "yoshitomo.rxx.jp" = false := by
  decide

/-! ## The claims -/

/-- C1: the `output` field of the record that the module exports as its default export is
exactly the string "standalone". -/
theorem output_is_standalone (envModule : ProcessEnv → Except String ProcessEnv)
    (env : ProcessEnv) (x : ModuleExports)
    (h : loadNextConfig envModule env = .ok x) :
    x.defaultExport.get "output" = some (.str "standalone")
      ∧ output x.defaultExport = some "standalone" := by
  rw [defaultExport_of_load h]
  exact ⟨rfl, rfl⟩

/-- Witness for C1: the load in the Docker build environment. -/
theorem output_is_standalone_witness :
    loadNextConfig sampleEnvModule dockerBuildEnv = .ok { defaultExport := config }
      ∧ (({ defaultExport := config } : ModuleExports).defaultExport.get "output"
            = some (.str "standalone")
          ∧ output ({ defaultExport := config } : ModuleExports).defaultExport
            = some "standalone") :=
  ⟨rfl, output_is_standalone sampleEnvModule dockerBuildEnv { defaultExport := config } rfl⟩

/-- C2: the `allowedDevOrigins` field of the exported record is an array of length exactly
one whose only element is the string "https://yoshitomo.rxx.jp"; a string is a member of
the list if and only if it equals that string. -/
theorem allowedDevOrigins_is_singleton (envModule : ProcessEnv → Except String ProcessEnv)
    (env : ProcessEnv) (x : ModuleExports)
    (h : loadNextConfig envModule env = .ok x) :
    x.defaultExport.get "allowedDevOrigins" = some (.arr [.str "https://yoshitomo.rxx.jp"])
      ∧ ∃ origins : List String,
          allowedDevOrigins x.defaultExport = some origins
            ∧ origins.length = 1
            ∧ origins.head? = some "https://yoshitomo.rxx.jp"
            ∧ ∀ s : String, s ∈ origins ↔ s = "https://yoshitomo.rxx.jp" := by
  rw [defaultExport_of_load h]
  refine ⟨rfl, ["https://yoshitomo.rxx.jp"], rfl, rfl, rfl, ?_⟩
  intro s
  simp

/-- Witness for C2: the load in the development environment. -/
theorem allowedDevOrigins_is_singleton_witness :
    loadNextConfig sampleEnvModule devEnv = .ok { defaultExport := config }
      ∧ ∃ origins : List String,
          allowedDevOrigins config = some origins
            ∧ origins.length = 1
            ∧ origins.head? = some "https://yoshitomo.rxx.jp"
            ∧ ∀ s : String, s ∈ origins ↔ s = "https://yoshitomo.rxx.jp" :=
  ⟨rfl, (allowedDevOrigins_is_singleton sampleEnvModule devEnv
    { defaultExport := config } rfl).2⟩

/-- C3: every element of the exported record's `allowedDevOrigins` array is a string that
is a well-formed origin: scheme `http` or `https`, then `://`, then a host of dot-separated
non-empty labels, then an optional `:port`, with no path, query, fragment, trailing slash or
whitespace. The one element parses as scheme `https`, host `yoshitomo.rxx.jp`, no port. -/
theorem allowedDevOrigins_well_formed (envModule : ProcessEnv → Except String ProcessEnv)
    (env : ProcessEnv) (x : ModuleExports)
    (h : loadNextConfig envModule env = .ok x) :
    ∃ elems : List JSValue,
      x.defaultExport.get "allowedDevOrigins" = some (.arr elems)
        ∧ ∀ v ∈ elems, ∃ s : String,
            v = .str s
              ∧ isWellFormedOrigin s = true
              ∧ parseOrigin s
                = some { scheme := "https", host := ["yoshitomo", "rxx", "jp"], port := none } := by
  rw [defaultExport_of_load h]
  refine ⟨[.str "https://yoshitomo.rxx.jp"], rfl, ?_⟩
  intro v hv
  rw [List.mem_singleton] at hv
  subst hv
  exact ⟨"https://yoshitomo.rxx.jp", rfl, by decide, by decide⟩

/-- Witness for C3: the load with an env module that never throws. -/
theorem allowedDevOrigins_well_formed_witness :
    loadNextConfig (fun e => .ok e) emptyEnv = .ok { defaultExport := config }
      ∧ ∃ elems : List JSValue,
          config.get "allowedDevOrigins" = some (.arr elems)
            ∧ ∀ v ∈ elems, ∃ s : String,
                v = .str s
                  ∧ isWellFormedOrigin s = true
                  ∧ parseOrigin s
                    = some { scheme := "https", host := ["yoshitomo", "rxx", "jp"],
                             port := none } :=
  ⟨rfl, allowedDevOrigins_well_formed (fun e => .ok e) emptyEnv { defaultExport := config } rfl⟩

/-- C4: the `output` value of the exported record is a member of the enumeration of output
modes that the build tool accepts, "standalone" and "export". -/
theorem output_in_outputModes (envModule : ProcessEnv → Except String ProcessEnv)
    (env : ProcessEnv) (x : ModuleExports)
    (h : loadNextConfig envModule env = .ok x) :
    ∃ mode : String, output x.defaultExport = some mode ∧ mode ∈ outputModes := by
  rw [defaultExport_of_load h]
  exact ⟨"standalone", rfl, by decide⟩

/-- Witness for C4: the load in the development environment with an env module that changes
the environment it is given. -/
theorem output_in_outputModes_witness :
    loadNextConfig (fun _ => .ok dockerBuildEnv) devEnv = .ok { defaultExport := config }
      ∧ ∃ mode : String, output config = some mode ∧ mode ∈ outputModes :=
  ⟨rfl, output_in_outputModes (fun _ => .ok dockerBuildEnv) devEnv
    { defaultExport := config } rfl⟩

/-- C5: the exported record is an object with exactly the two own keys `output` and
`allowedDevOrigins`: the key list is these two in source order without repetition, a key
belongs to it if and only if it is one of the two, and a property read is defined for
exactly these two keys. -/
theorem config_keys_exact (envModule : ProcessEnv → Except String ProcessEnv)
    (env : ProcessEnv) (x : ModuleExports)
    (h : loadNextConfig envModule env = .ok x) :
    (∃ ps, x.defaultExport = .obj ps)
      ∧ x.defaultExport.keys = ["output", "allowedDevOrigins"]
      ∧ x.defaultExport.keys.length = 2
      ∧ x.defaultExport.keys.Nodup
      ∧ (∀ k : String, k ∈ x.defaultExport.keys ↔ k = "output" ∨ k = "allowedDevOrigins")
      ∧ (∀ k : String,
          (x.defaultExport.get k).isSome = true ↔ k = "output" ∨ k = "allowedDevOrigins") := by
  rw [defaultExport_of_load h]
  refine ⟨⟨_, config_eq⟩, rfl, rfl, by decide, ?_, ?_⟩
  · intro k
    have hk : config.keys = ["output", "allowedDevOrigins"] := rfl
    simp [hk]
  · intro k
    rw [config_eq]
    by_cases h1 : k = "output"
    · subst h1
      simp [JSValue.get, JSValue.props]
    · by_cases h2 : k = "allowedDevOrigins"
      · subst h2
        simp [JSValue.get, JSValue.props]
      · have h1' : ¬ "output" = k := fun e => h1 e.symm
        have h2' : ¬ "allowedDevOrigins" = k := fun e => h2 e.symm
        simp [JSValue.get, JSValue.props, List.find?, h1, h2, h1', h2']

/-- Witness for C5: the load in the Docker build environment with an env module that never
throws. -/
theorem config_keys_exact_witness :
    loadNextConfig (fun e => .ok e) dockerBuildEnv = .ok { defaultExport := config }
      ∧ config.keys = ["output", "allowedDevOrigins"]
      ∧ (∀ k : String, (config.get k).isSome = true ↔ k = "output" ∨ k = "allowedDevOrigins") :=
  have w := config_keys_exact (fun e => .ok e) dockerBuildEnv { defaultExport := config } rfl
  ⟨rfl, w.2.1, w.2.2.2.2.2⟩

/-- C6: the exported record does not depend on the environment. For any two behaviours of
the env module and any two process environments, if both loads succeed then they export the
same record, whose `output` is "standalone" and whose `allowedDevOrigins` is the one-element
list of "https://yoshitomo.rxx.jp"; and each load succeeds exactly when the env module, the
only reader of the environment, does not throw. -/
theorem export_independent_of_env
    (envModule₁ envModule₂ : ProcessEnv → Except String ProcessEnv)
    (env₁ env₂ : ProcessEnv) (x₁ x₂ : ModuleExports)
    (h₁ : loadNextConfig envModule₁ env₁ = .ok x₁)
    (h₂ : loadNextConfig envModule₂ env₂ = .ok x₂) :
    x₁ = x₂
      ∧ x₁.defaultExport = config
      ∧ output x₁.defaultExport = some "standalone"
      ∧ allowedDevOrigins x₁.defaultExport = some ["https://yoshitomo.rxx.jp"]
      ∧ (∃ s₁, envModule₁ env₁ = .ok s₁) ∧ (∃ s₂, envModule₂ env₂ = .ok s₂)
      ∧ (∀ (m : ProcessEnv → Except String ProcessEnv) (e s : ProcessEnv),
          m e = .ok s → loadNextConfig m e = .ok x₁) := by
  have e₁ := defaultExport_of_load h₁
  have e₂ := defaultExport_of_load h₂
  have hx₁ : x₁ = { defaultExport := config } := by
    cases x₁
    simp only at e₁
    rw [e₁]
  have hx₂ : x₂ = { defaultExport := config } := by
    cases x₂
    simp only at e₂
    rw [e₂]
  refine ⟨by rw [hx₁, hx₂], e₁, by rw [e₁]; rfl, by rw [e₁]; rfl, ?_, ?_, ?_⟩
  · cases hm : envModule₁ env₁ with
    | error err => rw [load_of_envModule_error hm] at h₁; cases h₁
    | ok s => exact ⟨s, rfl⟩
  · cases hm : envModule₂ env₂ with
    | error err => rw [load_of_envModule_error hm] at h₂; cases h₂
    | ok s => exact ⟨s, rfl⟩
  · intro m e s hm
    rw [hx₁]
    exact load_of_envModule_ok hm

/-- Witness for C6: the loads with `SKIP_ENV_VALIDATION` set (Docker build environment) and
with it unset (development environment) export the same record. -/
theorem export_independent_of_env_witness :
    loadNextConfig sampleEnvModule dockerBuildEnv = .ok { defaultExport := config }
      ∧ loadNextConfig sampleEnvModule devEnv = .ok { defaultExport := config }
      ∧ dockerBuildEnv.isTruthy "SKIP_ENV_VALIDATION" = true
      ∧ devEnv.isTruthy "SKIP_ENV_VALIDATION" = false
      ∧ loadNextConfig sampleEnvModule emptyEnv = .error "Invalid environment variables"
      ∧ output config = some "standalone"
      ∧ allowedDevOrigins config = some ["https://yoshitomo.rxx.jp"] :=
  have w := export_independent_of_env sampleEnvModule sampleEnvModule dockerBuildEnv devEnv
    { defaultExport := config } { defaultExport := config } rfl rfl
  ⟨rfl, rfl, rfl, rfl, rfl, w.2.2.1, w.2.2.2.1⟩

end NextConfig
